import Mathlib

/-!
# Verification of the example-app API gateway core

Shallow embedding of the OAuth2/JWT token subsystem and the chat
orchestration loop of the example-app repository, together with proofs of
the specified properties.

Source files embedded:
* `src/routes/oauth.ts` — token endpoint (client-credentials only variant);
* `src/unnamed/part_006` — token endpoint variant supporting the password grant;
* `src/middleware/auth.ts` (second segment of `src/routes/chat.ts` file blob) —
  bearer-token verification middleware;
* `src/utils/jwt-keys.ts` (second segment of `src/scripts/init-analytics-db.ts`
  file blob) — key manager and JWKS discovery document;
* `src/routes/chat.ts` and `src/unnamed/part_007` — message normalization,
  request-body validation and the tool-call loop.

Library dependencies (`jsonwebtoken`, `JSON.parse`) are not part of the
repository; where their behaviour decides a property they are modelled
symbolically, with a doc comment marking the modelling.
-/

namespace ExampleApp

/-- JSON values as delivered by Express body parsing.  Numbers are modelled
as integers: no claim under verification depends on fractional numerics. -/
inductive Json where
  | null : Json
  | bool (b : Bool) : Json
  | num (n : Int) : Json
  | str (s : String) : Json
  | arr (elems : List Json) : Json
  | obj (fields : List (String × Json)) : Json

mutual

/-- JavaScript `String(x)` conversion of a JSON value.  Arrays render via
`Array.prototype.join(',')`, in which `null` elements render empty;
`normalizeMessages` only ever reaches this function with non-array,
non-string values, since those are intercepted by earlier branches. -/
def jsString : Json → String
  | .null => "null"
  | .bool b => if b then "true" else "false"
  | .num n => toString n
  | .str s => s
  | .arr xs => jsJoin xs
  | .obj _ => "[object Object]"

/-- `Array.prototype.join(',')` over JSON values: comma-separated elements
with `null` rendered as the empty string. -/
def jsJoin : List Json → String
  | [] => ""
  | [.null] => ""
  | [j] => jsString j
  | .null :: js => "," ++ jsJoin js
  | j :: js => jsString j ++ "," ++ jsJoin js

end

/-- The single-user-turn object `\x7b role: 'user', content \x7d` built by
`normalizeMessages` (src/src/routes/chat.ts line 59). -/
def userMsgJson (content : String) : Json :=
  .obj [("role", .str "user"), ("content", .str content)]

/-- JavaScript object property lookup on parsed-JSON fields. -/
def lookupField (fields : List (String × Json)) (key : String) : Option Json :=
  (fields.find? (fun f => f.1 == key)).map (fun f => f.2)

/-- Faithful embedding of `normalizeMessages`
(src/src/routes/chat.ts lines 41–68; identical copy in src/unnamed/part_007
lines 533–560).  The library call `JSON.parse` is abstracted as the
`parse` parameter (`none` models a thrown `SyntaxError`).  A parsed `null`
(and any other falsy parse result) fails the JavaScript
`parsed && typeof parsed === 'object'` test and therefore lands in the
"single message string" branch, exactly as in the source. -/
def normalizeMessages (parse : String → Option Json) (input : Json) : List Json :=
  match input with
  | .arr xs => xs
  | .str s =>
    match parse s with
    | some (.arr xs) => xs
    | some (.obj fields) => [.obj fields]
    | some _ => [userMsgJson s]
    | none => [userMsgJson s]
  | j => [userMsgJson (jsString j)]

/-- `normalizeMessages` as invoked by the zod preprocess step: a missing
`messages` property reaches it as JavaScript `undefined`, and
`String(undefined)` is the string `"undefined"`. -/
def normalizeMessagesField (parse : String → Option Json) : Option Json → List Json
  | some j => normalizeMessages parse j
  | none => [userMsgJson "undefined"]

/-- One caller-supplied chat turn after validation. -/
structure ChatMsg where
  role : String
  content : String
  deriving DecidableEq, Repr

/-- The zod element schema `z.object(\x7b role: z.string(), content: z.string() \x7d)`
(src/src/routes/chat.ts lines 74–77): an object with string `role` and
string `content`; unknown keys are stripped. -/
def parseChatMsg (j : Json) : Option ChatMsg :=
  match j with
  | .obj fields =>
    match lookupField fields "role", lookupField fields "content" with
    | some (.str r), some (.str c) => some { role := r, content := c }
    | _, _ => none
  | _ => none

/-- Element-wise validation of the normalized turn list against the zod
array schema: every element must parse as a `\x7b role, content \x7d` turn. -/
def parseTurns : List Json → Option (List ChatMsg)
  | [] => some []
  | j :: js =>
    match parseChatMsg j, parseTurns js with
    | some m, some ms => some (m :: ms)
    | _, _ => none

/-- The request-body schema `chatBodySchema`
(src/src/routes/chat.ts lines 71–79): the body must be an object; its
`messages` field is preprocessed by `normalizeMessages` and then validated
as a nonempty array of `\x7b role, content \x7d` string turns.  `none` models a
zod parse failure. -/
def chatBodyValidate (parse : String → Option Json) (body : Json) :
    Option (List ChatMsg) :=
  match body with
  | .obj fields =>
    let normalized := normalizeMessagesField parse (lookupField fields "messages")
    if normalized.isEmpty then none
    else parseTurns normalized
  | _ => none

/-- Outcome of the body-validation step of `chatHandler`
(src/src/routes/chat.ts lines 111–120): a failed parse is answered with
HTTP 400 before anything is forwarded upstream. -/
inductive BodyCheck where
  | invalidBody (status : Nat)
  | validBody (msgs : List ChatMsg)
  deriving DecidableEq, Repr

/-- The body-validation gate of `chatHandler`: HTTP 400 on zod failure,
otherwise the validated turn list. -/
def chatBodyCheck (parse : String → Option Json) (body : Json) : BodyCheck :=
  match chatBodyValidate parse body with
  | none => .invalidBody 400
  | some msgs => .validBody msgs

/-! ## Key Manager and JWT model

The key manager lives in `src/utils/jwt-keys.ts` (second segment of the
`src/scripts/init-analytics-db.ts` blob, lines 79–174).  RSA key material is
modelled symbolically: a key pair is identified by its public modulus and
exponent (`n`, `e`) together with the digest-derived key identifier `kid`;
the private half is usable only through `sign`, which takes the whole pair. -/

/-- The process-wide key pair generated once at startup by
`generateRSAKeyPair` (jwt-keys lines 92–116).  `kid` models the sha256
fingerprint prefix of the DER-encoded public key. -/
structure KeyPair where
  n : Nat
  e : Nat
  kid : String
  deriving DecidableEq, Repr

/-- The public half of a key pair, as obtained from `getPublicKey`
(jwt-keys lines 131–136) or reconstructed from the discovery document. -/
structure PublicKey where
  n : Nat
  e : Nat
  deriving DecidableEq, Repr

/-- `getPublicKey`: the public half of the pair. -/
def KeyPair.publicKey (kp : KeyPair) : PublicKey :=
  { n := kp.n, e := kp.e }

/-- The JWT claim set minted by the token endpoint
(src/routes/oauth.ts lines 106–118).  `scope` is present only when the
request supplied a truthy scope; `nbf` is never set by this issuer but is
honoured by the verifier, so it is carried as an optional claim. -/
structure JwtPayload where
  iss : String
  sub : String
  aud : String
  exp : Nat
  iat : Nat
  role : String
  scope : Option String
  nbf : Option Nat
  deriving DecidableEq, Repr

/-- A compact-serialized JWT.  `signed payload key` is a structurally valid
token whose RS256 signature verifies exactly against the public key `key`;
`malformed` covers every bearer string that is not a well-formed signed
token. -/
inductive Token where
  | signed (payload : JwtPayload) (key : PublicKey)
  | malformed (raw : String)
  deriving DecidableEq, Repr

/-- Modelled from the spec: `jwt.sign(payload, privateKey, (alg RS256))` of
the `jsonwebtoken` library (a dependency, not in `src/`).  Signing binds
the payload to the signing pair: the resulting signature verifies exactly
against the pair's public key and against no other key. -/
def sign (kp : KeyPair) (payload : JwtPayload) : Token :=
  .signed payload kp.publicKey

/-- The error classes thrown by `jwt.verify`, as discriminated by the
middleware (src/middleware/auth.ts lines 220–245): `TokenExpiredError` and
`NotBeforeError` are checked first, every other JWT failure (bad signature,
malformed token) is a generic `JsonWebTokenError`. -/
inductive VerifyError where
  | tokenExpired
  | notBefore
  | jsonWebTokenError
  deriving DecidableEq, Repr

/-- Modelled from the spec: `jwt.verify(token, publicKey, (algorithms RS256))`
of the `jsonwebtoken` library.  The signature is valid iff the verifying
key is the signing pair's public key; with no issuer/audience options
given, the only claims checked are the time claims: `nbf` (rejected while
`now < nbf`) and then `exp` (rejected once `now ≥ exp`, i.e. the validity
window is half-open on the right). -/
def verify (tok : Token) (pub : PublicKey) (now : Nat) :
    Except VerifyError JwtPayload :=
  match tok with
  | .malformed _ => .error .jsonWebTokenError
  | .signed payload key =>
    if key = pub then
      match payload.nbf with
      | some nbf =>
        if now < nbf then .error .notBefore
        else if payload.exp ≤ now then .error .tokenExpired
        else .ok payload
      | none =>
        if payload.exp ≤ now then .error .tokenExpired
        else .ok payload
    else .error .jsonWebTokenError

/-- One entry of the JWKS discovery document (jwt-keys lines 141–173).
The modulus and exponent — base64url strings of unsigned big-endian
integers in the source — are carried as the integers themselves, the
encoding being injective. -/
structure Jwk where
  kty : String
  use : String
  kid : String
  n : Nat
  e : Nat
  deriving DecidableEq, Repr

/-- The JWKS document returned by `GET /.well-known/jwks.json`. -/
structure Jwks where
  keys : List Jwk
  deriving DecidableEq, Repr

/-- `getPublicKeyJWK` (jwt-keys lines 141–173): exactly one key entry with
`kty = "RSA"`, `use = "sig"`, the pair's `kid`, and its modulus and
exponent. -/
def getPublicKeyJWK (kp : KeyPair) : Jwks :=
  { keys := [{ kty := "RSA", use := "sig", kid := kp.kid, n := kp.n, e := kp.e }] }

/-- The verification key an external party reconstructs from the discovery
document: the modulus and exponent of its sole entry. -/
def jwksPublicKey (j : Jwks) : Option PublicKey :=
  match j.keys with
  | [k] => some { n := k.n, e := k.e }
  | _ => none

/-! ## Token Verifier middleware -/

/-- Split a character list at every space, JavaScript
`String.prototype.split(' ')` style: adjacent separators yield empty
segments and the empty input yields one empty segment. -/
def splitCharsOnSpace : List Char → List (List Char)
  | [] => [[]]
  | c :: cs =>
    let rest := splitCharsOnSpace cs
    if c = ' ' then [] :: rest
    else
      match rest with
      | r :: rs => (c :: r) :: rs
      | [] => [[c]]

/-- JavaScript `s.split(' ')` as used on the Authorization header
(src/middleware/auth.ts line 190). -/
def jsSplitSpace (s : String) : List String :=
  (splitCharsOnSpace s.toList).map (fun cs => String.mk cs)

/-- Outcome of the middleware: `proceed p` models calling `next()` with
`req.user = p` attached (downstream route logic runs); `reject` models
answering immediately with the given status and JSON error body, without
invoking any downstream handler. -/
inductive MwResult where
  | reject (status : Nat) (error : String) (description : String)
  | proceed (user : JwtPayload)
  deriving DecidableEq, Repr

/-- Faithful embedding of `authenticateToken`
(src/middleware/auth.ts, second segment of the src/src/routes/chat.ts blob,
lines 176–253).  `decode` abstracts compact-serialization decoding of the
bearer string into a token; the header is split on every space character
exactly as `authHeader.split(' ')` does, and any shape other than exactly
`["Bearer", tokenStr]` is a malformed header.  The key pair is generated
at startup before any request (src/unnamed/part_001 line 12), so the
public key is available. -/
def authenticateToken (decode : String → Token) (pub : PublicKey) (now : Nat)
    (authHeader : Option String) : MwResult :=
  match authHeader with
  | none => .reject 401 "unauthorized" "Missing Authorization header"
  | some h =>
    match jsSplitSpace h with
    | [scheme, tokenStr] =>
      if scheme = "Bearer" then
        if tokenStr = "" then
          .reject 401 "unauthorized" "Missing access token"
        else
          match verify (decode tokenStr) pub now with
          | .ok payload => .proceed payload
          | .error .tokenExpired =>
            .reject 401 "unauthorized" "Token has expired"
          | .error .notBefore =>
            .reject 401 "unauthorized" "Token not yet valid"
          | .error .jsonWebTokenError =>
            .reject 401 "unauthorized" "Invalid or malformed token"
      else
        .reject 401 "unauthorized"
          "Invalid Authorization header format. Expected: Bearer <token>"
    | _ =>
      .reject 401 "unauthorized"
        "Invalid Authorization header format. Expected: Bearer <token>"

/-! ## Token Issuer -/

/-- One configured client-credentials entry (oauth.ts lines 5–9).  The
role, a union of the three literals `readonly`/`readwrite`/`admin` in the
source, is carried as a string. -/
structure ClientConfig where
  clientId : String
  clientSecret : String
  role : String
  deriving DecidableEq, Repr

/-- One configured password-grant entry (part_006 lines 11–15). -/
structure UserConfig where
  username : String
  password : String
  role : String
  deriving DecidableEq, Repr

/-- `process.env.X || ''`: an absent environment variable reads as the
empty string. -/
def envOr (v : Option String) : String := v.getD ""

/-- The client allowlist built at startup (oauth.ts lines 12–28, identical
in part_006 lines 18–34): one candidate entry per role, defaulting to
empty strings, with entries whose id or secret is empty filtered out. -/
def loadClients (roId roSec rwId rwSec adId adSec : Option String) :
    List ClientConfig :=
  ([ { clientId := envOr roId, clientSecret := envOr roSec, role := "readonly" },
     { clientId := envOr rwId, clientSecret := envOr rwSec, role := "readwrite" },
     { clientId := envOr adId, clientSecret := envOr adSec, role := "admin" }
   ] : List ClientConfig).filter
    (fun c => !(c.clientId == "") && !(c.clientSecret == ""))

/-- The user allowlist of the password-grant variant
(part_006 lines 39–55), built the same way. -/
def loadUsers (roU roP rwU rwP adU adP : Option String) : List UserConfig :=
  ([ { username := envOr roU, password := envOr roP, role := "readonly" },
     { username := envOr rwU, password := envOr rwP, role := "readwrite" },
     { username := envOr adU, password := envOr adP, role := "admin" }
   ] : List UserConfig).filter
    (fun u => !(u.username == "") && !(u.password == ""))

/-- A form-encoded token request body.  `none` models an absent field;
JavaScript truthiness tests (`if (!x)`) also reject the empty string, see
`truthy`. -/
structure TokenRequest where
  grant_type : Option String
  client_id : Option String
  client_secret : Option String
  username : Option String
  password : Option String
  scope : Option String
  deriving DecidableEq, Repr

/-- JavaScript truthiness of an optional form-field string: present and
nonempty. -/
def truthy : Option String → Bool
  | none => false
  | some s => !(s == "")

/-- The JSON body of a successful token response
(oauth.ts lines 126–139). -/
structure TokenSuccess where
  access_token : Token
  token_type : String
  expires_in : Nat
  scope : Option String
  deriving DecidableEq, Repr

/-- Result of one call to the token endpoint: an OAuth error object with
its HTTP status, or the success body. -/
inductive TokenResult where
  | err (status : Nat) (error : String) (description : String)
  | ok (body : TokenSuccess)
  deriving DecidableEq, Repr

/-- The claim set minted on success (oauth.ts lines 103–118, identical in
part_006 lines 186–202): fixed issuer and audience, subject = the
authenticated client identifier (or username), issued-at = now,
expires-at = now + configured lifetime, the matched entry's role, and the
scope echoed only when truthy. -/
def mintPayload (subject role : String) (scope : Option String)
    (now expiresIn : Nat) : JwtPayload :=
  { iss := "example-app"
    sub := subject
    aud := "example-app"
    exp := now + expiresIn
    iat := now
    role := role
    scope := if truthy scope then scope else none
    nbf := none }

/-- The success response (oauth.ts lines 120–141, part_006 lines 204–225):
the signed token, `token_type = "Bearer"`, `expires_in` = the configured
lifetime, and the scope echoed only when truthy. -/
def mintResponse (kp : KeyPair) (subject role : String) (scope : Option String)
    (now expiresIn : Nat) : TokenResult :=
  .ok { access_token := sign kp (mintPayload subject role scope now expiresIn)
        token_type := "Bearer"
        expires_in := expiresIn
        scope := if truthy scope then scope else none }

/-- Faithful embedding of `tokenHandler` from src/src/routes/oauth.ts
lines 36–149 (the variant wired into the server, src/unnamed/part_001):
note that the empty-allowlist check (lines 39–45) runs BEFORE any
grant-type validation. -/
def tokenHandler (clients : List ClientConfig) (expiresIn : Nat) (kp : KeyPair)
    (now : Nat) (req : TokenRequest) : TokenResult :=
  if clients.length = 0 then
    .err 500 "server_error" "OAuth server configuration error: No clients configured"
  else if !truthy req.grant_type then
    .err 400 "invalid_request" "Missing required parameter: grant_type"
  else if req.grant_type ≠ some "client_credentials" then
    .err 400 "invalid_grant" "Unsupported grant type"
  else if !truthy req.client_id then
    .err 400 "invalid_request" "Missing required parameter: client_id"
  else if !truthy req.client_secret then
    .err 400 "invalid_request" "Missing required parameter: client_secret"
  else
    match clients.find? (fun c =>
        some c.clientId == req.client_id && some c.clientSecret == req.client_secret) with
    | none => .err 401 "invalid_client" "Invalid client credentials"
    | some client =>
      mintResponse kp (envOr req.client_id) client.role req.scope now expiresIn

/-- Faithful embedding of `tokenHandler` from src/unnamed/part_006
lines 63–233 (the variant also supporting the password grant): here the
grant-type checks run first and the empty-allowlist check for the selected
grant runs inside its branch. -/
def tokenHandlerPw (clients : List ClientConfig) (users : List UserConfig)
    (expiresIn : Nat) (kp : KeyPair) (now : Nat) (req : TokenRequest) :
    TokenResult :=
  if !truthy req.grant_type then
    .err 400 "invalid_request" "Missing required parameter: grant_type"
  else if req.grant_type = some "client_credentials" then
    if clients.length = 0 then
      .err 500 "server_error" "OAuth server configuration error: No clients configured"
    else if !truthy req.client_id then
      .err 400 "invalid_request" "Missing required parameter: client_id"
    else if !truthy req.client_secret then
      .err 400 "invalid_request" "Missing required parameter: client_secret"
    else
      match clients.find? (fun c =>
          some c.clientId == req.client_id && some c.clientSecret == req.client_secret) with
      | none => .err 401 "invalid_client" "Invalid client credentials"
      | some client =>
        mintResponse kp (envOr req.client_id) client.role req.scope now expiresIn
  else if req.grant_type = some "password" then
    if users.length = 0 then
      .err 500 "server_error" "OAuth server configuration error: No users configured"
    else if !truthy req.username then
      .err 400 "invalid_request" "Missing required parameter: username"
    else if !truthy req.password then
      .err 400 "invalid_request" "Missing required parameter: password"
    else
      match users.find? (fun u =>
          some u.username == req.username && some u.password == req.password) with
      | none => .err 401 "invalid_grant" "Invalid username or password"
      | some user =>
        mintResponse kp (envOr req.username) user.role req.scope now expiresIn
  else
    .err 400 "invalid_grant"
      "Unsupported grant type. Supported types: client_credentials, password"

/-! ## Chat Orchestrator tool-call loop (src/unnamed/part_007 lines 573–716) -/

/-- One tool call requested by the upstream model
(`toolCall.id`, `toolCall.function.name`, `toolCall.function.arguments`). -/
structure ToolCall where
  id : String
  name : String
  arguments : String
  deriving DecidableEq, Repr

/-- One upstream `/v1/chat/completions` response as consumed by the loop:
a non-2xx transport answer with its status and body text, or a 2xx answer
reduced to `data.choices?.[0]?.message` — its `content` and its
`tool_calls` list (an absent or empty `tool_calls` both model the
`assistantMessage?.tool_calls && length > 0` test failing). -/
inductive UpstreamResp where
  | notOk (status : Nat) (body : String)
  | ok (content : Option String) (toolCalls : List ToolCall)
  deriving DecidableEq, Repr

/-- Result of executing one tool call
(`executeToolCall`, part_007 lines 488–513): the `get_user` tool renders
the authenticated user's claims (or a structured no-user error), any other
name yields the structured unknown-tool result.  The model-supplied
arguments are parsed by the source but never read by the sole registered
tool, so they are not carried here. -/
inductive ToolExecResult where
  | userInfo (payload : JwtPayload)
  | noAuthenticatedUser
  | unknownTool (name : String)
  deriving DecidableEq, Repr

/-- `executeToolCall` (part_007 lines 488–513): a switch on the tool name
with `get_user` as the only registered case. -/
def executeToolCall (toolName : String) (user : Option JwtPayload) :
    ToolExecResult :=
  if toolName = "get_user" then
    match user with
    | some p => .userInfo p
    | none => .noAuthenticatedUser
  else .unknownTool toolName

/-- One turn of the conversation sent upstream: a plain role/content turn,
an assistant turn carrying tool calls (content mapped through
`assistantMessage.content || null`), or a tool-role turn carrying one tool
result keyed by `tool_call_id`. -/
inductive ChatTurn where
  | basic (role : String) (content : String)
  | assistantToolCalls (content : Option String) (toolCalls : List ToolCall)
  | toolResult (toolCallId : String) (result : ToolExecResult)
  deriving DecidableEq, Repr

/-- `assistantMessage.content || null` (part_007 line 670): an empty or
absent content becomes null. -/
def contentOrNull : Option String → Option String
  | some s => if s = "" then none else some s
  | none => none

/-- Terminal outcome of one chat request's loop: the final upstream answer
forwarded as-is, a forwarded upstream transport error, or loop
exhaustion. -/
inductive ChatOutcome where
  | finalAnswer (content : Option String)
  | upstreamError (status : Nat) (body : String)
  | limitExceeded
  deriving DecidableEq, Repr

/-- HTTP status with which each outcome is sent (part_007 lines 653–659,
699–708): the final answer via `res.json` (200), an upstream error with
the upstream's own status, exhaustion as 500. -/
def ChatOutcome.httpStatus : ChatOutcome → Nat
  | .finalAnswer _ => 200
  | .upstreamError s _ => s
  | .limitExceeded => 500

/-- The `error` field of the JSON body sent for each failure outcome
(part_007 lines 655–658 and 705–708). -/
def ChatOutcome.errorLabel : ChatOutcome → Option String
  | .finalAnswer _ => none
  | .upstreamError _ _ => some "LiteLLM server error"
  | .limitExceeded => some "Tool call limit exceeded"

/-- A finished run of the tool-call loop: its outcome, how many upstream
POSTs were made, how many tool-execution rounds ran (iterations whose
response carried tool calls), and the final conversation transcript. -/
structure ChatRun where
  outcome : ChatOutcome
  upstreamCalls : Nat
  toolRounds : Nat
  transcript : List ChatTurn
  deriving DecidableEq, Repr

/-- `const MAX_TOOL_ITERATIONS = 10` (part_007 line 638). -/
def MAX_TOOL_ITERATIONS : Nat := 10

/-- The `while (iteration < MAX_TOOL_ITERATIONS)` loop of `chatHandler`
(part_007 lines 637–708).  `remaining` is `MAX_TOOL_ITERATIONS - iteration`;
`upstream i` scripts the response to the `(i+1)`-th upstream POST (the
source sends the accumulated transcript; a scripted stub indexed by call
number is how the loop is driven here).  Each iteration either forwards a
non-2xx upstream answer, returns a tool-call-free answer as final, or
appends the assistant's tool-call turn plus one tool-role turn per
requested call and loops. -/
def chatLoop (upstream : Nat → UpstreamResp) (user : Option JwtPayload) :
    Nat → Nat → Nat → List ChatTurn → ChatRun
  | 0, calls, rounds, msgs =>
    { outcome := .limitExceeded, upstreamCalls := calls,
      toolRounds := rounds, transcript := msgs }
  | remaining + 1, calls, rounds, msgs =>
    match upstream calls with
    | .notOk status body =>
      { outcome := .upstreamError status body, upstreamCalls := calls + 1,
        toolRounds := rounds, transcript := msgs }
    | .ok content [] =>
      { outcome := .finalAnswer content, upstreamCalls := calls + 1,
        toolRounds := rounds, transcript := msgs }
    | .ok content (tc :: tcs) =>
      chatLoop upstream user remaining (calls + 1) (rounds + 1)
        (msgs ++ .assistantToolCalls (contentOrNull content) (tc :: tcs)
             :: (tc :: tcs).map (fun t => .toolResult t.id (executeToolCall t.name user)))

/-- Entry into the loop after validation: the transcript starts with the
resolved system prompt followed by the caller's normalized turns
(part_007 lines 620–623), the iteration counter at zero. -/
def runChat (upstream : Nat → UpstreamResp) (user : Option JwtPayload)
    (systemPrompt : String) (userMessages : List ChatMsg) : ChatRun :=
  chatLoop upstream user MAX_TOOL_ITERATIONS 0 0
    (.basic "system" systemPrompt ::
      userMessages.map (fun m => .basic m.role m.content))

/-- Does an upstream response request at least one tool call? -/
def requestsTools : UpstreamResp → Bool
  | .ok _ (_ :: _) => true
  | _ => false

/-! ## Auxiliary predicates and concrete fixtures used in the statements
and witnesses below -/

/-- A JSON value that is neither an array nor an object (the values whose
`JSON.parse` result sends a string input to the single-message branch of
`normalizeMessages`). -/
def jsonNotArrObj : Json → Bool
  | .arr _ => false
  | .obj _ => false
  | _ => true

/-- A JSON value that is neither an array nor a string (the `messages`
shapes that reach the `String(input)` fallback of `normalizeMessages`). -/
def jsonNotArrStr : Json → Bool
  | .arr _ => false
  | .str _ => false
  | _ => true

/-- A client-credentials token request carrying the given credentials. -/
def ccReq (cid cs : String) (scope : Option String) : TokenRequest :=
  { grant_type := some "client_credentials", client_id := some cid,
    client_secret := some cs, username := none, password := none,
    scope := scope }

/-- A password-grant token request carrying the given credentials. -/
def pwReq (un pw : String) (scope : Option String) : TokenRequest :=
  { grant_type := some "password", client_id := none, client_secret := none,
    username := some un, password := some pw, scope := scope }

/-- Scripted upstream stub: tool calls on the first two responses, then a
final answer. -/
def stubFinalAfter2 : Nat → UpstreamResp := fun i =>
  if i < 2 then .ok none [{ id := "c", name := "get_user", arguments := "" }]
  else .ok (some "done") []

/-- Scripted upstream stub that requests a tool call in every response. -/
def stubAlwaysTools : Nat → UpstreamResp := fun _ =>
  .ok none [{ id := "c", name := "get_user", arguments := "" }]

/-- A concrete key pair for witness statements. -/
def demoKeyPair : KeyPair := { n := 1, e := 1, kid := "kid1" }

/-- A decoder mapping every bearer string to one concrete freshly minted
token, signed with `demoKeyPair`. -/
def demoDecode : String → Token :=
  fun _ => sign demoKeyPair (mintPayload "svc-admin" "admin" none 0 3600)

/-- A payload whose issuer, audience, subject and role are all foreign to
this service. -/
def oddPayload : JwtPayload :=
  { iss := "somebody-else", sub := "mallory", aud := "other-api",
    exp := 50, iat := 0, role := "superadmin", scope := none, nbf := none }

/-- A decoder mapping every bearer string to `oddPayload` signed with the
process key pair. -/
def oddDecode : String → Token := fun _ => .signed oddPayload demoKeyPair.publicKey

/-- A concrete stand-in for `JSON.parse` that parses exactly the text
`"[hi]"` into a one-turn array. -/
def parseStubHi : String → Option Json := fun t =>
  if t = "[hi]" then some (.arr [userMsgJson "hi"]) else none

/-- A concrete stand-in for `JSON.parse` that parses exactly the text
`"[1]"` into the array `[1]`. -/
def parseStubNum : String → Option Json := fun t =>
  if t = "[1]" then some (.arr [.num 1]) else none

/-! ## Helper lemmas -/

/-- Verifying a token signed with a pair against that pair's public key
checks only the expiry once the payload carries no `nbf`. -/
theorem verify_sign (kp : KeyPair) (p : JwtPayload) (pub : PublicKey) (now : Nat)
    (hpub : pub = kp.publicKey) (hnbf : p.nbf = none) :
    verify (sign kp p) pub now =
      if p.exp ≤ now then .error .tokenExpired else .ok p := by
  subst hpub
  simp [sign, verify, hnbf]

/-- If every upstream response requests tool calls, the loop runs its
remaining iterations to exhaustion, making one upstream call and one tool
round per iteration. -/
theorem chatLoop_all_tools (upstream : Nat → UpstreamResp) (user : Option JwtPayload)
    (h : ∀ i, requestsTools (upstream i) = true) :
    ∀ remaining calls rounds msgs,
      (chatLoop upstream user remaining calls rounds msgs).outcome = .limitExceeded ∧
      (chatLoop upstream user remaining calls rounds msgs).upstreamCalls = calls + remaining ∧
      (chatLoop upstream user remaining calls rounds msgs).toolRounds = rounds + remaining := by
  intro remaining
  induction remaining with
  | zero =>
    intro calls rounds msgs
    simp [chatLoop]
  | succ r ih =>
    intro calls rounds msgs
    have ht := h calls
    cases hu : upstream calls with
    | notOk s b => rw [hu] at ht; simp [requestsTools] at ht
    | ok c tcs =>
      cases tcs with
      | nil => rw [hu] at ht; simp [requestsTools] at ht
      | cons tc tcs =>
        simp only [chatLoop, hu]
        refine ⟨(ih (calls+1) (rounds+1) _).1, ?_, ?_⟩
        · rw [(ih (calls+1) (rounds+1) _).2.1]; omega
        · rw [(ih (calls+1) (rounds+1) _).2.2]; omega

/-- If the first `N` upstream responses (counting from the current call
index) request tool calls and the next one is final, the loop returns that
final answer after `N` tool rounds and `N + 1` upstream calls, provided
more than `N` iterations remain. -/
theorem chatLoop_final (upstream : Nat → UpstreamResp) (user : Option JwtPayload)
    (c : Option String) :
    ∀ (N remaining calls rounds : Nat) (msgs : List ChatTurn),
      N < remaining →
      (∀ i, i < N → requestsTools (upstream (calls + i)) = true) →
      upstream (calls + N) = .ok c [] →
      (chatLoop upstream user remaining calls rounds msgs).outcome = .finalAnswer c ∧
      (chatLoop upstream user remaining calls rounds msgs).upstreamCalls = calls + N + 1 ∧
      (chatLoop upstream user remaining calls rounds msgs).toolRounds = rounds + N := by
  intro N
  induction N with
  | zero =>
    intro remaining calls rounds msgs hlt _ hfin
    match remaining, hlt with
    | r + 1, _ =>
      rw [Nat.add_zero] at hfin
      simp [chatLoop, hfin]
  | succ n ih =>
    intro remaining calls rounds msgs hlt htools hfin
    match remaining, hlt with
    | r + 1, hlt =>
      have h0 := htools 0 (Nat.succ_pos n)
      rw [Nat.add_zero] at h0
      cases hu : upstream calls with
      | notOk s b => rw [hu] at h0; simp [requestsTools] at h0
      | ok c0 tcs =>
        cases tcs with
        | nil => rw [hu] at h0; simp [requestsTools] at h0
        | cons tc tcs =>
          simp only [chatLoop, hu]
          have hn : n < r := by omega
          have htools2 : ∀ i, i < n → requestsTools (upstream (calls + 1 + i)) = true := by
            intro i hi
            have hstep := htools (i + 1) (by omega)
            have harith : calls + (i + 1) = calls + 1 + i := by omega
            rw [harith] at hstep
            exact hstep
          have hfin2 : upstream (calls + 1 + n) = .ok c [] := by
            have harith : calls + (n + 1) = calls + 1 + n := by omega
            rw [harith] at hfin
            exact hfin
          refine ⟨(ih r (calls+1) (rounds+1) _ hn htools2 hfin2).1, ?_, ?_⟩
          · rw [(ih r (calls+1) (rounds+1) _ hn htools2 hfin2).2.1]; omega
          · rw [(ih r (calls+1) (rounds+1) _ hn htools2 hfin2).2.2]; omega

/-- Every successful token response carries a token signed with the
process key pair over a freshly minted payload. -/
theorem tokenHandler_ok_inv (clients : List ClientConfig) (T : Nat) (kp : KeyPair)
    (now : Nat) (req : TokenRequest) (body : TokenSuccess) :
    tokenHandler clients T kp now req = .ok body →
    ∃ subject role,
      body.access_token = sign kp (mintPayload subject role req.scope now T) := by
  intro h
  unfold tokenHandler at h
  split at h
  · exact absurd h (by simp)
  split at h
  · exact absurd h (by simp)
  split at h
  · exact absurd h (by simp)
  split at h
  · exact absurd h (by simp)
  split at h
  · exact absurd h (by simp)
  split at h
  · exact absurd h (by simp)
  case _ client heq =>
    refine ⟨envOr req.client_id, client.role, ?_⟩
    simp only [mintResponse] at h
    injection h with h'
    rw [← h']

/-- Failed credential lookups in `tokenHandler` produce the constant
`invalid_client` response. -/
theorem tokenHandler_lookup_failure (clients : List ClientConfig) (T : Nat)
    (kp : KeyPair) (now : Nat) (cid cs : String) (scope : Option String)
    (hne : clients ≠ []) (hcid : cid ≠ "") (hcs : cs ≠ "")
    (hfind : clients.find? (fun k =>
      some k.clientId == some cid && some k.clientSecret == some cs) = none) :
    tokenHandler clients T kp now (ccReq cid cs scope) =
      .err 401 "invalid_client" "Invalid client credentials" := by
  unfold tokenHandler ccReq
  rw [if_neg (by simp [List.length_eq_zero, hne])]
  rw [if_neg (by simp [truthy])]
  rw [if_neg (by simp)]
  rw [if_neg (by simp [truthy, hcid])]
  rw [if_neg (by simp [truthy, hcs])]
  rw [hfind]

/-- Failed client lookups in the password-supporting handler produce the
same constant `invalid_client` response. -/
theorem tokenHandlerPw_lookup_failure (clients : List ClientConfig)
    (users : List UserConfig) (T : Nat) (kp : KeyPair) (now : Nat)
    (cid cs : String) (scope : Option String)
    (hne : clients ≠ []) (hcid : cid ≠ "") (hcs : cs ≠ "")
    (hfind : clients.find? (fun k =>
      some k.clientId == some cid && some k.clientSecret == some cs) = none) :
    tokenHandlerPw clients users T kp now (ccReq cid cs scope) =
      .err 401 "invalid_client" "Invalid client credentials" := by
  unfold tokenHandlerPw ccReq
  rw [if_neg (by simp [truthy])]
  rw [if_pos (by simp)]
  rw [if_neg (by simp [List.length_eq_zero, hne])]
  rw [if_neg (by simp [truthy, hcid])]
  rw [if_neg (by simp [truthy, hcs])]
  rw [hfind]

/-- Failed user lookups in the password grant produce the constant
`invalid_grant` response. -/
theorem tokenHandlerPw_user_lookup_failure (clients : List ClientConfig)
    (users : List UserConfig) (T : Nat) (kp : KeyPair) (now : Nat)
    (un pw : String) (scope : Option String)
    (hne : users ≠ []) (hun : un ≠ "") (hpw : pw ≠ "")
    (hfind : users.find? (fun u =>
      some u.username == some un && some u.password == some pw) = none) :
    tokenHandlerPw clients users T kp now (pwReq un pw scope) =
      .err 401 "invalid_grant" "Invalid username or password" := by
  unfold tokenHandlerPw pwReq
  rw [if_neg (by simp [truthy])]
  rw [if_neg (by simp)]
  rw [if_pos (by simp)]
  rw [if_neg (by simp [List.length_eq_zero, hne])]
  rw [if_neg (by simp [truthy, hun])]
  rw [if_neg (by simp [truthy, hpw])]
  rw [hfind]

/-! ## Claim theorems -/

/-- Claim C1: every claim set minted by the token endpoint, signed RS256
with the process private key, verifies against the public key published in
the JWKS discovery document and yields exactly the original claims
unchanged (verification taken within the token's validity window). -/
theorem C1_roundtrip (clients : List ClientConfig) (T : Nat) (kp : KeyPair)
    (now : Nat) (req : TokenRequest) (body : TokenSuccess) (t : Nat) :
    tokenHandler clients T kp now req = .ok body →
    t < now + T →
    ∃ p, body.access_token = sign kp p ∧ p.iat = now ∧ p.exp = now + T ∧
      ∃ pub, jwksPublicKey (getPublicKeyJWK kp) = some pub ∧
        verify body.access_token pub t = .ok p := by
  intro hok ht
  obtain ⟨subject, role, hat⟩ := tokenHandler_ok_inv clients T kp now req body hok
  refine ⟨mintPayload subject role req.scope now T, hat, rfl, rfl,
    kp.publicKey, rfl, ?_⟩
  rw [hat, verify_sign kp _ _ t rfl rfl]
  rw [if_neg (by simp only [mintPayload]; omega :
    ¬ (mintPayload subject role req.scope now T).exp ≤ t)]

/-- Witness for C1 at a concrete configuration, request and verification
time. -/
theorem C1_roundtrip_witness :
    ∃ p, (TokenSuccess.mk
        (sign demoKeyPair (mintPayload "svc-admin" "admin" none 100 3600))
        "Bearer" 3600 none).access_token = sign demoKeyPair p ∧
      p.iat = 100 ∧ p.exp = 100 + 3600 ∧
      ∃ pub, jwksPublicKey (getPublicKeyJWK demoKeyPair) = some pub ∧
        verify (TokenSuccess.mk
          (sign demoKeyPair (mintPayload "svc-admin" "admin" none 100 3600))
          "Bearer" 3600 none).access_token pub 150 = .ok p :=
  C1_roundtrip [{ clientId := "svc-admin", clientSecret := "s3cret", role := "admin" }]
    3600 demoKeyPair 100 (ccReq "svc-admin" "s3cret" none) _ 150
    (by decide) (by decide)

/-- Claim C2: in the tool-call loop with ceiling 10, an upstream that
requests tool calls in its first `N` responses and answers without tool
calls on response `N + 1` drives exactly `N` tool-execution rounds and
`N + 1` upstream calls and has its final response returned, whenever
`N < 10`; an upstream that requests tool calls in every response drives
exactly 10 upstream calls and then the request fails with the distinct
HTTP 500 "Tool call limit exceeded" error, with no further upstream
calls. -/
theorem C2_tool_call_loop (upstream : Nat → UpstreamResp) (user : Option JwtPayload)
    (systemPrompt : String) (userMessages : List ChatMsg) :
    (∀ N c, N < MAX_TOOL_ITERATIONS →
        (∀ i, i < N → requestsTools (upstream i) = true) →
        upstream N = .ok c [] →
        (runChat upstream user systemPrompt userMessages).outcome = .finalAnswer c ∧
        (runChat upstream user systemPrompt userMessages).upstreamCalls = N + 1 ∧
        (runChat upstream user systemPrompt userMessages).toolRounds = N) ∧
    ((∀ i, requestsTools (upstream i) = true) →
        (runChat upstream user systemPrompt userMessages).outcome = .limitExceeded ∧
        (runChat upstream user systemPrompt userMessages).upstreamCalls = MAX_TOOL_ITERATIONS ∧
        (runChat upstream user systemPrompt userMessages).outcome.httpStatus = 500 ∧
        (runChat upstream user systemPrompt userMessages).outcome.errorLabel =
          some "Tool call limit exceeded") := by
  constructor
  · intro N c hN htools hfin
    have h := chatLoop_final upstream user c N MAX_TOOL_ITERATIONS 0 0
      (.basic "system" systemPrompt :: userMessages.map (fun m => .basic m.role m.content))
      hN (by simpa using htools) (by simpa using hfin)
    unfold runChat
    refine ⟨h.1, ?_, ?_⟩
    · rw [h.2.1]; omega
    · rw [h.2.2]; omega
  · intro h
    have h2 := chatLoop_all_tools upstream user h MAX_TOOL_ITERATIONS 0 0
      (.basic "system" systemPrompt :: userMessages.map (fun m => .basic m.role m.content))
    unfold runChat
    refine ⟨h2.1, ?_, ?_, ?_⟩
    · rw [h2.2.1]; omega
    · rw [h2.1]; rfl
    · rw [h2.1]; rfl

/-- Witness for C2 with two scripted stubs: one answering after two tool
rounds, one requesting tools forever. -/
theorem C2_tool_call_loop_witness :
    (runChat stubFinalAfter2 none "sys" [{ role := "user", content := "hi" }]).outcome
        = .finalAnswer (some "done") ∧
    (runChat stubFinalAfter2 none "sys" [{ role := "user", content := "hi" }]).upstreamCalls = 3 ∧
    (runChat stubFinalAfter2 none "sys" [{ role := "user", content := "hi" }]).toolRounds = 2 ∧
    (runChat stubAlwaysTools none "sys" [{ role := "user", content := "hi" }]).outcome
        = .limitExceeded ∧
    (runChat stubAlwaysTools none "sys" [{ role := "user", content := "hi" }]).upstreamCalls = 10 := by
  have h1 := (C2_tool_call_loop stubFinalAfter2 none "sys"
      [{ role := "user", content := "hi" }]).1 2 (some "done") (by decide)
      (by intro i hi; interval_cases i <;> decide) (by decide)
  have h2 := (C2_tool_call_loop stubAlwaysTools none "sys"
      [{ role := "user", content := "hi" }]).2 (by intro i; rfl)
  exact ⟨h1.1, h1.2.1, h1.2.2, h2.1, h2.2.1⟩

/-- Claim C3: a request whose client id and secret exactly match a
configured credential receives `access_token`, `token_type = "Bearer"`,
`expires_in` = the configured lifetime, the scope echoed exactly when one
was supplied, and a signed claim set with subject = the authenticated
client identifier, `iat = now`, `exp = now + lifetime`, and the matched
credential's role copied verbatim. -/
theorem C3_token_success (clients : List ClientConfig) (T : Nat) (kp : KeyPair)
    (now : Nat) (req : TokenRequest) (c : ClientConfig) (cid cs : String) :
    clients ≠ [] →
    req.grant_type = some "client_credentials" →
    req.client_id = some cid → cid ≠ "" →
    req.client_secret = some cs → cs ≠ "" →
    clients.find? (fun k =>
      some k.clientId == req.client_id && some k.clientSecret == req.client_secret) = some c →
    req.scope ≠ some "" →
    tokenHandler clients T kp now req =
      .ok { access_token := sign kp
              { iss := "example-app", sub := cid, aud := "example-app",
                exp := now + T, iat := now, role := c.role,
                scope := req.scope, nbf := none }
            token_type := "Bearer", expires_in := T, scope := req.scope } := by
  intro hne hg hcid hcidne hcs hcsne hfind hscope
  have hscopeT : (if truthy req.scope then req.scope else none) = req.scope := by
    cases hsc : req.scope with
    | none => simp [truthy]
    | some v =>
      have hv : v ≠ "" := by
        intro hv
        subst hv
        exact hscope hsc
      simp [truthy, hv]
  unfold tokenHandler
  rw [if_neg (by simp [List.length_eq_zero, hne])]
  rw [hg]
  rw [if_neg (by simp [truthy])]
  rw [if_neg (by simp)]
  rw [hcid]
  rw [if_neg (by simp [truthy, hcidne])]
  rw [hcs]
  rw [if_neg (by simp [truthy, hcsne])]
  rw [hcid, hcs] at hfind
  rw [hfind]
  simp only [mintResponse, mintPayload, envOr, Option.getD, hscopeT]

/-- Witness for C3 at a concrete configuration and matching request. -/
theorem C3_token_success_witness :
    tokenHandler [{ clientId := "svc-rw", clientSecret := "pw", role := "readwrite" }]
      3600 demoKeyPair 7 (ccReq "svc-rw" "pw" (some "read")) =
      .ok { access_token := sign demoKeyPair
              { iss := "example-app", sub := "svc-rw", aud := "example-app",
                exp := 7 + 3600, iat := 7, role := "readwrite",
                scope := some "read", nbf := none }
            token_type := "Bearer", expires_in := 3600, scope := some "read" } :=
  C3_token_success [{ clientId := "svc-rw", clientSecret := "pw", role := "readwrite" }]
    3600 demoKeyPair 7 (ccReq "svc-rw" "pw" (some "read"))
    { clientId := "svc-rw", clientSecret := "pw", role := "readwrite" }
    "svc-rw" "pw" (by decide) (by decide) (by decide) (by decide)
    (by decide) (by decide) (by decide) (by decide)

/-- Claim C4: every request the Token Verifier middleware does not pass
through to downstream logic — missing header, malformed header, invalid
or malformed token, expired token, not-yet-valid token — is answered with
HTTP 401; equivalently, every run of the middleware either proceeds to the
route handler or rejects with status 401. -/
theorem C4_rejections_are_401 (decode : String → Token) (pub : PublicKey)
    (now : Nat) (authHeader : Option String) :
    (∃ p, authenticateToken decode pub now authHeader = .proceed p) ∨
    (∃ d, authenticateToken decode pub now authHeader = .reject 401 "unauthorized" d) := by
  rcases authHeader with _ | h
  · exact Or.inr ⟨_, rfl⟩
  rcases hsp : jsSplitSpace h with _ | ⟨a, _ | ⟨b, _ | ⟨c, tl⟩⟩⟩ <;>
    simp only [authenticateToken, hsp]
  · exact Or.inr ⟨_, rfl⟩
  · exact Or.inr ⟨_, rfl⟩
  · by_cases ha : a = "Bearer"
    · rw [if_pos ha]
      by_cases hb : b = ""
      · rw [if_pos hb]
        exact Or.inr ⟨_, rfl⟩
      · rw [if_neg hb]
        cases hv : verify (decode b) pub now with
        | ok p => exact Or.inl ⟨p, rfl⟩
        | error e => cases e <;> exact Or.inr ⟨_, rfl⟩
    · rw [if_neg ha]
      exact Or.inr ⟨_, rfl⟩
  · exact Or.inr ⟨_, rfl⟩

/-- Claim C5: a token minted with lifetime `T` is accepted by the verifier
at every time before `T` seconds have elapsed since issuance, and at every
time from `T` seconds on it is rejected with the distinct "Token has
expired" error, not the generic invalid-token error; the boundary instant
`iat + T` itself is consistently on the rejection side. -/
theorem C5_expiry_window (decode : String → Token) (kp : KeyPair)
    (subject role : String) (scope : Option String) (now T t : Nat)
    (s h : String) :
    decode s = sign kp (mintPayload subject role scope now T) →
    jsSplitSpace h = ["Bearer", s] → s ≠ "" →
    (t < now + T →
      authenticateToken decode kp.publicKey t (some h) =
        .proceed (mintPayload subject role scope now T)) ∧
    (now + T ≤ t →
      authenticateToken decode kp.publicKey t (some h) =
        .reject 401 "unauthorized" "Token has expired" ∧
      authenticateToken decode kp.publicKey t (some h) ≠
        .reject 401 "unauthorized" "Invalid or malformed token") := by
  intro hdec hsp hs
  have hv := verify_sign kp (mintPayload subject role scope now T) kp.publicKey t rfl rfl
  constructor
  · intro ht
    simp only [authenticateToken, hsp, if_true]
    rw [if_neg hs, hdec, hv]
    rw [if_neg (by simp only [mintPayload]; omega :
      ¬ (mintPayload subject role scope now T).exp ≤ t)]
  · intro ht
    simp only [authenticateToken, hsp, if_true]
    rw [if_neg hs, hdec, hv]
    rw [if_pos (by simp only [mintPayload]; omega :
      (mintPayload subject role scope now T).exp ≤ t)]
    exact ⟨rfl, by
      intro hcon
      injection hcon with h1 h2 h3
      exact absurd h3 (by decide)⟩

/-- Witness for C5: a token with lifetime 3600 issued at time 0 is
accepted at time 10 and rejected as expired at exactly time 3600. -/
theorem C5_expiry_window_witness :
    authenticateToken demoDecode demoKeyPair.publicKey 10 (some "Bearer tok") =
      .proceed (mintPayload "svc-admin" "admin" none 0 3600) ∧
    authenticateToken demoDecode demoKeyPair.publicKey 3600 (some "Bearer tok") =
      .reject 401 "unauthorized" "Token has expired" := by
  have h1 := C5_expiry_window demoDecode demoKeyPair "svc-admin" "admin" none 0 3600 10
    "tok" "Bearer tok" rfl (by decide) (by decide)
  have h2 := C5_expiry_window demoDecode demoKeyPair "svc-admin" "admin" none 0 3600 3600
    "tok" "Bearer tok" rfl (by decide) (by decide)
  exact ⟨h1.1 (by decide), (h2.2 (by decide)).1⟩

/-- Counterexample to claim C6 as stated: in the wired handler
(src/src/routes/oauth.ts) with an empty configured credential set, a
request with no `grant_type` is answered with the 500 `server_error`
response, not the 400 `invalid_request` the claim requires regardless of
configuration — the empty-allowlist check precedes the grant-type
checks. -/
theorem C6_counterexample :
    tokenHandler [] 3600 { n := 1, e := 1, kid := "k" } 0
      { grant_type := none, client_id := none, client_secret := none,
        username := none, password := none, scope := none } =
      .err 500 "server_error" "OAuth server configuration error: No clients configured" := by
  decide

/-- Claim C6 (amended): in the password-supporting handler (part_006) the
grant-type checks run first — missing `grant_type` yields 400
`invalid_request` and an unsupported `grant_type` yields 400
`invalid_grant` regardless of the configured credential sets, and the 500
`server_error` for an empty set is reached only inside the selected grant
branch.  In the wired handler (oauth.ts) the empty-allowlist check runs
first: with no clients configured every request is answered 500
`server_error`; with at least one client configured, missing `grant_type`
yields 400 `invalid_request` and an unsupported one yields 400
`invalid_grant`. -/
theorem C6_amended :
    (∀ (T : Nat) (kp : KeyPair) (now : Nat) (req : TokenRequest),
      tokenHandler [] T kp now req =
        .err 500 "server_error" "OAuth server configuration error: No clients configured") ∧
    (∀ (clients : List ClientConfig) (T : Nat) (kp : KeyPair) (now : Nat)
        (req : TokenRequest), clients ≠ [] →
      truthy req.grant_type = false →
      tokenHandler clients T kp now req =
        .err 400 "invalid_request" "Missing required parameter: grant_type") ∧
    (∀ (clients : List ClientConfig) (T : Nat) (kp : KeyPair) (now : Nat)
        (req : TokenRequest) (g : String), clients ≠ [] →
      req.grant_type = some g → g ≠ "" → g ≠ "client_credentials" →
      tokenHandler clients T kp now req =
        .err 400 "invalid_grant" "Unsupported grant type") ∧
    (∀ (clients : List ClientConfig) (users : List UserConfig) (T : Nat)
        (kp : KeyPair) (now : Nat) (req : TokenRequest),
      truthy req.grant_type = false →
      tokenHandlerPw clients users T kp now req =
        .err 400 "invalid_request" "Missing required parameter: grant_type") ∧
    (∀ (clients : List ClientConfig) (users : List UserConfig) (T : Nat)
        (kp : KeyPair) (now : Nat) (req : TokenRequest) (g : String),
      req.grant_type = some g → g ≠ "" → g ≠ "client_credentials" → g ≠ "password" →
      tokenHandlerPw clients users T kp now req =
        .err 400 "invalid_grant"
          "Unsupported grant type. Supported types: client_credentials, password") ∧
    (∀ (clients : List ClientConfig) (users : List UserConfig) (T : Nat)
        (kp : KeyPair) (now : Nat) (req : TokenRequest),
      clients = [] → req.grant_type = some "client_credentials" →
      tokenHandlerPw clients users T kp now req =
        .err 500 "server_error" "OAuth server configuration error: No clients configured") := by
  refine ⟨?_, ?_, ?_, ?_, ?_, ?_⟩
  · intro T kp now req
    rfl
  · intro clients T kp now req hne hgt
    unfold tokenHandler
    rw [if_neg (by simp [List.length_eq_zero, hne])]
    rw [if_pos (by simp [hgt])]
  · intro clients T kp now req g hne hg hgne hgcc
    unfold tokenHandler
    rw [if_neg (by simp [List.length_eq_zero, hne])]
    rw [if_neg (by simp [truthy, hg, hgne])]
    rw [if_pos (by simp [hg, hgcc])]
  · intro clients users T kp now req hgt
    unfold tokenHandlerPw
    rw [if_pos (by simp [hgt])]
  · intro clients users T kp now req g hg hgne hgcc hgpw
    unfold tokenHandlerPw
    rw [if_neg (by simp [truthy, hg, hgne])]
    rw [if_neg (by simp [hg, hgcc])]
    rw [if_neg (by simp [hg, hgpw])]
  · intro clients users T kp now req hcl hg
    unfold tokenHandlerPw
    rw [if_neg (by simp [truthy, hg])]
    rw [if_pos (by simp [hg])]
    rw [if_pos (by simp [hcl])]

/-- Witness for the amended C6 at concrete configurations and requests. -/
theorem C6_amended_witness :
    tokenHandler [] 5 demoKeyPair 0
      { grant_type := none, client_id := none, client_secret := none,
        username := none, password := none, scope := none } =
      .err 500 "server_error" "OAuth server configuration error: No clients configured" ∧
    tokenHandler [{ clientId := "a", clientSecret := "s", role := "admin" }] 5 demoKeyPair 0
      { grant_type := none, client_id := none, client_secret := none,
        username := none, password := none, scope := none } =
      .err 400 "invalid_request" "Missing required parameter: grant_type" ∧
    tokenHandler [{ clientId := "a", clientSecret := "s", role := "admin" }] 5 demoKeyPair 0
      { grant_type := some "password", client_id := none, client_secret := none,
        username := none, password := none, scope := none } =
      .err 400 "invalid_grant" "Unsupported grant type" ∧
    tokenHandlerPw [{ clientId := "a", clientSecret := "s", role := "admin" }] [] 5 demoKeyPair 0
      { grant_type := none, client_id := none, client_secret := none,
        username := none, password := none, scope := none } =
      .err 400 "invalid_request" "Missing required parameter: grant_type" ∧
    tokenHandlerPw [{ clientId := "a", clientSecret := "s", role := "admin" }] [] 5 demoKeyPair 0
      { grant_type := some "magic", client_id := none, client_secret := none,
        username := none, password := none, scope := none } =
      .err 400 "invalid_grant"
        "Unsupported grant type. Supported types: client_credentials, password" ∧
    tokenHandlerPw [] [] 5 demoKeyPair 0
      { grant_type := some "client_credentials", client_id := none, client_secret := none,
        username := none, password := none, scope := none } =
      .err 500 "server_error" "OAuth server configuration error: No clients configured" := by
  refine ⟨C6_amended.1 5 demoKeyPair 0 _, ?_, ?_, ?_, ?_, ?_⟩
  · exact C6_amended.2.1 _ 5 demoKeyPair 0 _ (by decide) (by decide)
  · exact C6_amended.2.2.1 _ 5 demoKeyPair 0 _ "password" (by decide) (by decide)
      (by decide) (by decide)
  · exact C6_amended.2.2.2.1 _ [] 5 demoKeyPair 0 _ (by decide)
  · exact C6_amended.2.2.2.2.1 _ [] 5 demoKeyPair 0 _ "magic" (by decide) (by decide)
      (by decide) (by decide)
  · exact C6_amended.2.2.2.2.2 [] [] 5 demoKeyPair 0 _ (by decide) (by decide)

/-- Claim C7: two token requests that both fail credential lookup — one
with a configured client identifier but a wrong secret, the other with an
unknown client identifier — receive identical responses (HTTP 401,
`invalid_client` for client-credentials, `invalid_grant` for the password
grant), so the response never reveals whether an identifier exists. -/
theorem C7_uniform_auth_failure (clients : List ClientConfig)
    (users : List UserConfig) (T : Nat) (kp : KeyPair) (now : Nat)
    (cid1 cs1 cid2 cs2 un1 pw1 un2 pw2 : String) (scope : Option String) :
    clients ≠ [] → users ≠ [] →
    cid1 ≠ "" → cs1 ≠ "" → cid2 ≠ "" → cs2 ≠ "" →
    un1 ≠ "" → pw1 ≠ "" → un2 ≠ "" → pw2 ≠ "" →
    (∃ c ∈ clients, c.clientId = cid1) →
    (∀ c ∈ clients, ¬(c.clientId = cid1 ∧ c.clientSecret = cs1)) →
    (∀ c ∈ clients, c.clientId ≠ cid2) →
    (∃ u ∈ users, u.username = un1) →
    (∀ u ∈ users, ¬(u.username = un1 ∧ u.password = pw1)) →
    (∀ u ∈ users, u.username ≠ un2) →
    (tokenHandler clients T kp now (ccReq cid1 cs1 scope) =
        tokenHandler clients T kp now (ccReq cid2 cs2 scope) ∧
      tokenHandler clients T kp now (ccReq cid1 cs1 scope) =
        .err 401 "invalid_client" "Invalid client credentials") ∧
    (tokenHandlerPw clients users T kp now (ccReq cid1 cs1 scope) =
        tokenHandlerPw clients users T kp now (ccReq cid2 cs2 scope) ∧
      tokenHandlerPw clients users T kp now (ccReq cid1 cs1 scope) =
        .err 401 "invalid_client" "Invalid client credentials") ∧
    (tokenHandlerPw clients users T kp now (pwReq un1 pw1 scope) =
        tokenHandlerPw clients users T kp now (pwReq un2 pw2 scope) ∧
      tokenHandlerPw clients users T kp now (pwReq un1 pw1 scope) =
        .err 401 "invalid_grant" "Invalid username or password") := by
  intro hcne hune h1 h2 h3 h4 h5 h6 h7 h8 hexists hwrong hmissing huexists huwrong humissing
  have hfind1 : clients.find? (fun k =>
      some k.clientId == some cid1 && some k.clientSecret == some cs1) = none := by
    rw [List.find?_eq_none]
    intro c hc
    simp only [Bool.and_eq_true, beq_iff_eq, Option.some.injEq, not_and]
    intro hc1 hc2
    exact hwrong c hc ⟨hc1, hc2⟩
  have hfind2 : clients.find? (fun k =>
      some k.clientId == some cid2 && some k.clientSecret == some cs2) = none := by
    rw [List.find?_eq_none]
    intro c hc
    simp only [Bool.and_eq_true, beq_iff_eq, Option.some.injEq, not_and]
    intro hc1 _
    exact absurd hc1 (hmissing c hc)
  have hufind1 : users.find? (fun u =>
      some u.username == some un1 && some u.password == some pw1) = none := by
    rw [List.find?_eq_none]
    intro u hu
    simp only [Bool.and_eq_true, beq_iff_eq, Option.some.injEq, not_and]
    intro hu1 hu2
    exact huwrong u hu ⟨hu1, hu2⟩
  have hufind2 : users.find? (fun u =>
      some u.username == some un2 && some u.password == some pw2) = none := by
    rw [List.find?_eq_none]
    intro u hu
    simp only [Bool.and_eq_true, beq_iff_eq, Option.some.injEq, not_and]
    intro hu1 _
    exact absurd hu1 (humissing u hu)
  refine ⟨⟨?_, ?_⟩, ⟨?_, ?_⟩, ⟨?_, ?_⟩⟩
  · rw [tokenHandler_lookup_failure clients T kp now cid1 cs1 scope hcne h1 h2 hfind1,
      tokenHandler_lookup_failure clients T kp now cid2 cs2 scope hcne h3 h4 hfind2]
  · exact tokenHandler_lookup_failure clients T kp now cid1 cs1 scope hcne h1 h2 hfind1
  · rw [tokenHandlerPw_lookup_failure clients users T kp now cid1 cs1 scope hcne h1 h2 hfind1,
      tokenHandlerPw_lookup_failure clients users T kp now cid2 cs2 scope hcne h3 h4 hfind2]
  · exact tokenHandlerPw_lookup_failure clients users T kp now cid1 cs1 scope hcne h1 h2 hfind1
  · rw [tokenHandlerPw_user_lookup_failure clients users T kp now un1 pw1 scope hune h5 h6 hufind1,
      tokenHandlerPw_user_lookup_failure clients users T kp now un2 pw2 scope hune h7 h8 hufind2]
  · exact tokenHandlerPw_user_lookup_failure clients users T kp now un1 pw1 scope hune h5 h6 hufind1

/-- Witness for C7: a known client with a wrong secret and an unknown
client get the same response, and likewise for the password grant. -/
theorem C7_uniform_auth_failure_witness :
    (tokenHandler [{ clientId := "alice", clientSecret := "pw1", role := "readonly" }]
        3600 demoKeyPair 0 (ccReq "alice" "wrong" none) =
      tokenHandler [{ clientId := "alice", clientSecret := "pw1", role := "readonly" }]
        3600 demoKeyPair 0 (ccReq "mallory" "x" none) ∧
      tokenHandler [{ clientId := "alice", clientSecret := "pw1", role := "readonly" }]
        3600 demoKeyPair 0 (ccReq "alice" "wrong" none) =
        .err 401 "invalid_client" "Invalid client credentials") ∧
    (tokenHandlerPw [{ clientId := "alice", clientSecret := "pw1", role := "readonly" }]
        [{ username := "bob", password := "pw2", role := "admin" }]
        3600 demoKeyPair 0 (ccReq "alice" "wrong" none) =
      tokenHandlerPw [{ clientId := "alice", clientSecret := "pw1", role := "readonly" }]
        [{ username := "bob", password := "pw2", role := "admin" }]
        3600 demoKeyPair 0 (ccReq "mallory" "x" none) ∧
      tokenHandlerPw [{ clientId := "alice", clientSecret := "pw1", role := "readonly" }]
        [{ username := "bob", password := "pw2", role := "admin" }]
        3600 demoKeyPair 0 (ccReq "alice" "wrong" none) =
        .err 401 "invalid_client" "Invalid client credentials") ∧
    (tokenHandlerPw [{ clientId := "alice", clientSecret := "pw1", role := "readonly" }]
        [{ username := "bob", password := "pw2", role := "admin" }]
        3600 demoKeyPair 0 (pwReq "bob" "bad" none) =
      tokenHandlerPw [{ clientId := "alice", clientSecret := "pw1", role := "readonly" }]
        [{ username := "bob", password := "pw2", role := "admin" }]
        3600 demoKeyPair 0 (pwReq "eve" "y" none) ∧
      tokenHandlerPw [{ clientId := "alice", clientSecret := "pw1", role := "readonly" }]
        [{ username := "bob", password := "pw2", role := "admin" }]
        3600 demoKeyPair 0 (pwReq "bob" "bad" none) =
        .err 401 "invalid_grant" "Invalid username or password") :=
  C7_uniform_auth_failure
    [{ clientId := "alice", clientSecret := "pw1", role := "readonly" }]
    [{ username := "bob", password := "pw2", role := "admin" }]
    3600 demoKeyPair 0 "alice" "wrong" "mallory" "x" "bob" "bad" "eve" "y" none
    (by decide) (by decide) (by decide) (by decide) (by decide) (by decide)
    (by decide) (by decide) (by decide) (by decide) (by decide) (by decide)
    (by decide) (by decide) (by decide) (by decide)

/-- Claim C8: the three request-body encodings of the `messages` field — a
turn array, a JSON-encoded string of that array, and (for a single user
message whose content is not itself JSON text for an array or object) the
bare content string — all normalize to the same internal ordered turn
sequence. -/
theorem C8_encodings (parse : String → Option Json) (xs : List Json) (s c : String) :
    (parse s = some (.arr xs) →
      normalizeMessages parse (.str s) = normalizeMessages parse (.arr xs) ∧
      normalizeMessages parse (.arr xs) = xs) ∧
    ((parse c = none ∨ ∃ j, parse c = some j ∧ jsonNotArrObj j = true) →
      normalizeMessages parse (.str c) =
        normalizeMessages parse (.arr [userMsgJson c]) ∧
      normalizeMessages parse (.str c) = [userMsgJson c]) := by
  constructor
  · intro hp
    simp [normalizeMessages, hp]
  · intro hp
    rcases hp with hp | ⟨j, hp, hj⟩
    · simp [normalizeMessages, hp]
    · cases j <;> simp_all [normalizeMessages, jsonNotArrObj]

/-- Witness for C8 with a concrete parser, array, encoded string and bare
content string. -/
theorem C8_encodings_witness :
    normalizeMessages parseStubHi (.str "[hi]") =
      normalizeMessages parseStubHi (.arr [userMsgJson "hi"]) ∧
    normalizeMessages parseStubHi (.str "hello") =
      normalizeMessages parseStubHi (.arr [userMsgJson "hello"]) ∧
    normalizeMessages parseStubHi (.str "hello") = [userMsgJson "hello"] := by
  have h1 := (C8_encodings parseStubHi [userMsgJson "hi"] "[hi]" "hello").1 rfl
  have h2 := (C8_encodings parseStubHi [userMsgJson "hi"] "[hi]" "hello").2 (Or.inl rfl)
  exact ⟨h1.1, h2.1, h2.2⟩

/-- Counterexample to claim C9 as stated: the request body whose
`messages` field is the number 42 — not an array of turns, not a string,
not a JSON-encoded string of an array — is not rejected with 400; the
`String(input)` fallback of `normalizeMessages` silently turns it into the
single user turn with content `"42"`, which passes validation. -/
theorem C9_counterexample :
    chatBodyCheck (fun _ => none) (.obj [("messages", .num 42)]) =
      .validBody [{ role := "user", content := "42" }] := by
  decide

/-- Claim C9 (amended): a `messages` field that is an array — directly or
as a JSON-encoded string — which is empty or contains an element that is
not a `\x7b role, content \x7d` string turn is rejected with HTTP 400; but a
`messages` field that is neither an array nor a string is not rejected:
it is silently coerced into a single user turn whose content is the
JavaScript string rendering of the value. -/
theorem C9_amended (parse : String → Option Json) (fields : List (String × Json)) :
    (∀ xs, lookupField fields "messages" = some (.arr xs) →
      (xs = [] ∨ parseTurns xs = none) →
      chatBodyCheck parse (.obj fields) = .invalidBody 400) ∧
    (∀ s xs, lookupField fields "messages" = some (.str s) →
      parse s = some (.arr xs) →
      (xs = [] ∨ parseTurns xs = none) →
      chatBodyCheck parse (.obj fields) = .invalidBody 400) ∧
    (∀ j, lookupField fields "messages" = some j → jsonNotArrStr j = true →
      chatBodyCheck parse (.obj fields) =
        .validBody [{ role := "user", content := jsString j }]) := by
  refine ⟨?_, ?_, ?_⟩
  · intro xs hl hmal
    simp only [chatBodyCheck, chatBodyValidate, normalizeMessagesField, hl,
      normalizeMessages]
    rcases hmal with rfl | hm
    · simp
    · rcases xs with _ | ⟨x, xs⟩
      · simp [parseTurns] at hm
      · simp [hm]
  · intro s xs hl hp hmal
    simp only [chatBodyCheck, chatBodyValidate, normalizeMessagesField, hl,
      normalizeMessages, hp]
    rcases hmal with rfl | hm
    · simp
    · rcases xs with _ | ⟨x, xs⟩
      · simp [parseTurns] at hm
      · simp [hm]
  · intro j hl hj
    simp only [chatBodyCheck, chatBodyValidate, normalizeMessagesField, hl]
    cases j <;> simp_all [normalizeMessages, jsonNotArrStr, parseTurns,
      parseChatMsg, userMsgJson, lookupField, List.find?]

/-- Witness for the amended C9: a malformed direct array, a malformed
JSON-encoded array, and a numeric `messages` value. -/
theorem C9_amended_witness :
    chatBodyCheck parseStubNum (.obj [("messages", .arr [.num 1])]) =
      .invalidBody 400 ∧
    chatBodyCheck parseStubNum (.obj [("messages", .str "[1]")]) =
      .invalidBody 400 ∧
    chatBodyCheck parseStubNum (.obj [("messages", .bool true)]) =
      .validBody [{ role := "user", content := "true" }] := by
  have h1 := (C9_amended parseStubNum [("messages", .arr [.num 1])]).1
    [.num 1] rfl (Or.inr rfl)
  have h2 := (C9_amended parseStubNum [("messages", .str "[1]")]).2.1
    "[1]" [.num 1] rfl rfl (Or.inr rfl)
  have h3 := (C9_amended parseStubNum [("messages", .bool true)]).2.2
    (.bool true) rfl rfl
  exact ⟨h1, h2, h3⟩

/-- Claim C10 (implicit): the Token Verifier accepts every token that is
signed with the process key pair and lies inside its validity window,
attaching its claims to the request context, whatever issuer, audience,
subject or role values it carries — none of those claims is checked. -/
theorem C10_verifier_checks_only_signature_and_window (decode : String → Token)
    (kp : KeyPair) (t : Nat) (p : JwtPayload) (s h : String) :
    decode s = .signed p kp.publicKey →
    jsSplitSpace h = ["Bearer", s] → s ≠ "" →
    p.nbf = none → t < p.exp →
    authenticateToken decode kp.publicKey t (some h) = .proceed p := by
  intro hdec hsp hs hnbf ht
  have hv := verify_sign kp p kp.publicKey t rfl hnbf
  simp only [authenticateToken, hsp, if_true]
  rw [if_neg hs, hdec]
  rw [show Token.signed p kp.publicKey = sign kp p from rfl, hv]
  rw [if_neg (by omega : ¬ p.exp ≤ t)]

/-- Witness for C10: a token whose issuer, audience, subject and role are
all foreign to this service is accepted and attached verbatim. -/
theorem C10_verifier_checks_only_signature_and_window_witness :
    authenticateToken oddDecode demoKeyPair.publicKey 10 (some "Bearer tok") =
      .proceed oddPayload :=
  C10_verifier_checks_only_signature_and_window oddDecode demoKeyPair 10 oddPayload
    "tok" "Bearer tok" rfl (by decide) (by decide) rfl (by decide)

end ExampleApp
